import Mathlib

/-!
Verification development for the Bispo-Barber-System repository.

The definitions below are a shallow embedding of the TypeScript source:
  - `src/drizzle/schema.ts`        (data model: enums and row shapes)
  - `src/server/products.ts`       (static service catalog and helpers)
  - `src/server/stripe-webhook.ts` (webhook reconciler)
  - `src/server/db.ts`             (thin data-access helpers)
  - `src/server/routers.ts`        (tRPC router: chat / appointments / training)
  - the stripe tRPC router (checkout-session creation, payment status)

Database rows are modelled as Lean structures; a table is a `List` of rows;
a SQL `UPDATE ... WHERE id = x` is a `map` that rewrites every row whose id
matches.  External collaborators (the payment provider, the MySQL server)
are modelled by parameters: the outcome of signature verification is a
function argument, identifiers minted by the provider (customer id,
checkout-session id) are plain arguments, and database availability
(`getDb()` returning null) is a boolean argument.  Auto-managed timestamp
columns (`createdAt`, `updatedAt`) are not part of the row model: they are
maintained by the database engine, not by the code under verification.
-/

deriving instance DecidableEq for Except

namespace BarberSystem

/-- Lifecycle status of an appointment, from the `status` mysqlEnum of the
`appointments` table in `src/drizzle/schema.ts`. -/
inductive AppointmentStatus
  | confirmed
  | pending
  | completed
  | cancelled
deriving DecidableEq, Repr

/-- Payment status of an appointment, from the `paymentStatus` mysqlEnum of
the `appointments` table in `src/drizzle/schema.ts`. -/
inductive PaymentStatus
  | pending
  | completed
  | failed
  | refunded
deriving DecidableEq, Repr

/-- User role, from the `role` mysqlEnum of the `users` table. -/
inductive Role
  | user
  | admin
deriving DecidableEq, Repr

/-- Message author role, from the `role` mysqlEnum of the `messages` table. -/
inductive MsgRole
  | user
  | assistant
deriving DecidableEq, Repr

/-- Training-example quality, from the `quality` mysqlEnum of the
`training_examples` table. -/
inductive Quality
  | excellent
  | good
  | acceptable
  | poor
deriving DecidableEq, Repr

/-- A row of the `appointments` table (`src/drizzle/schema.ts`).  The
auto-managed `createdAt`/`updatedAt` timestamp columns and the unused
`googleCalendarEventId` column are elided. -/
structure Appointment where
  id : Int
  userId : Int
  conversationId : Option Int
  barberName : Option String
  service : String
  duration : Nat
  scheduledAt : Nat
  status : AppointmentStatus
  paymentStatus : PaymentStatus
  stripePaymentIntentId : Option String
  stripeCheckoutSessionId : Option String
  priceInCents : Option Nat
  notes : Option String
deriving DecidableEq, Repr

/-- A row of the `users` table (fields relevant to the verified operations). -/
structure User where
  id : Int
  openId : String
  name : Option String
  email : Option String
  role : Role
  stripeCustomerId : Option String
deriving DecidableEq, Repr

/-- A row of the `conversations` table (fields relevant here). -/
structure Conversation where
  id : Int
  userId : Int
  title : String
deriving DecidableEq, Repr

/-- A row of the `messages` table (auto timestamp replaced by an explicit
`createdAt` ordinal the database assigns on insert). -/
structure Message where
  id : Int
  conversationId : Int
  role : MsgRole
  content : String
  metadata : Option String
  createdAt : Nat
deriving DecidableEq, Repr

/-- A row of the `training_examples` table. -/
structure TrainingExample where
  id : Int
  createdByUserId : Int
  userMessage : String
  assistantResponse : String
  category : String
  quality : Quality
  active : Int
deriving DecidableEq, Repr

/-- The relational store visible to the verified operations: one list per
table, plus the auto-increment counter of `training_examples` (the only
table the verified operations insert into). -/
structure AppState where
  users : List User
  conversations : List Conversation
  messages : List Message
  appointments : List Appointment
  trainingExamples : List TrainingExample
  nextTrainingExampleId : Int
deriving DecidableEq, Repr

/-- `UPDATE appointments SET ... WHERE id = aid`: rewrite every row whose id
matches, leave the rest untouched (`db.update(appointments).set(...).where(eq(appointments.id, aid))`). -/
def updateWhereId (store : List Appointment) (aid : Int)
    (f : Appointment → Appointment) : List Appointment :=
  store.map (fun a => if a.id = aid then f a else a)

/-- `SELECT * FROM appointments WHERE id = aid LIMIT 1`: the first row with a
matching id, if any. -/
def findAppointmentById (store : List Appointment) (aid : Int) : Option Appointment :=
  store.find? (fun a => a.id == aid)

/-- Insertion by a Nat key, descending (stable), used to model
`orderBy(desc(col))`. -/
def insertByKeyDesc {α : Type} (key : α → Nat) (x : α) : List α → List α
  | [] => [x]
  | y :: ys => if key y ≤ key x then x :: y :: ys else y :: insertByKeyDesc key x ys

/-- Stable sort by a Nat key, descending. -/
def sortByKeyDesc {α : Type} (key : α → Nat) : List α → List α
  | [] => []
  | x :: xs => insertByKeyDesc key x (sortByKeyDesc key xs)

/-- Insertion by a Nat key, ascending (stable), used to model
`orderBy(asc(col))`. -/
def insertByKeyAsc {α : Type} (key : α → Nat) (x : α) : List α → List α
  | [] => [x]
  | y :: ys => if key x < key y then x :: y :: ys else y :: insertByKeyAsc key x ys

/-- Stable sort by a Nat key, ascending. -/
def sortByKeyAsc {α : Type} (key : α → Nat) : List α → List α
  | [] => []
  | x :: xs => insertByKeyAsc key x (sortByKeyAsc key xs)

/-! ## Service catalog — `src/server/products.ts` -/

/-- A static service definition (`BARBERSHOP_SERVICES` entry). -/
structure Service where
  id : String
  name : String
  description : String
  price : Nat
  currency : String
  duration : Nat
deriving DecidableEq, Repr

/-- `BARBERSHOP_SERVICES.HAIRCUT`. -/
def HAIRCUT : Service :=
  { id := "haircut"
    name := "Corte de Cabelo"
    description := "Corte de cabelo profissional"
    price := 2500
    currency := "usd"
    duration := 30 }

/-- `BARBERSHOP_SERVICES.HAIR_AND_EYEBROW`. -/
def HAIR_AND_EYEBROW : Service :=
  { id := "hair_eyebrow"
    name := "Cabelo e Sobrancelha"
    description := "Corte de cabelo com aparação de sobrancelha"
    price := 3000
    currency := "usd"
    duration := 45 }

/-- `BARBERSHOP_SERVICES.FULL_SERVICE`. -/
def FULL_SERVICE : Service :=
  { id := "full_service"
    name := "Serviço Completo"
    description := "Corte de cabelo, aparação de sobrancelha e barba"
    price := 4000
    currency := "usd"
    duration := 60 }

/-- `Object.values(BARBERSHOP_SERVICES)` in declaration order. -/
def BARBERSHOP_SERVICES : List Service := [HAIRCUT, HAIR_AND_EYEBROW, FULL_SERVICE]

/-- JavaScript `toLowerCase()` restricted to characters that occur in the
catalog and to ASCII: `'Ç'` maps to `'ç'`, ASCII uppercase maps down, every
other character is unchanged. -/
def jsToLowerChar (c : Char) : Char :=
  if c = 'Ç' then 'ç' else c.toLower

/-- JavaScript `toLowerCase()` on a string, via `jsToLowerChar`. -/
def jsToLower (s : String) : String :=
  String.mk (s.data.map jsToLowerChar)

/-- `getServiceById` from `src/server/products.ts`. -/
def getServiceById (id : String) : Option Service :=
  BARBERSHOP_SERVICES.find? (fun service => service.id == id)

/-- `getServiceByName` from `src/server/products.ts`: case-insensitive match
on the display name, or exact match on the id against the lowered input. -/
def getServiceByName (name : String) : Option Service :=
  let normalized := jsToLower name
  BARBERSHOP_SERVICES.find?
    (fun service => jsToLower service.name == normalized || service.id == normalized)

/-- `getAllServices` from `src/server/products.ts`. -/
def getAllServices : List Service := BARBERSHOP_SERVICES

/-- Left-pad of the cents part used by `formatPrice`. -/
def centsString (c : Nat) : String :=
  (if c < 10 then "0" else "") ++ toString c

/-- `formatPrice` from `src/server/products.ts`:
`` `$${(priceInCents / 100).toFixed(2)}` ``.  For a nonnegative integer
number of cents below 2^53 the binary float `priceInCents / 100` rounds
under `toFixed(2)` to the exact two-decimal expansion, so the function is
modelled with exact Nat division and remainder. -/
def formatPrice (priceInCents : Nat) : String :=
  "$" ++ toString (priceInCents / 100) ++ "." ++ centsString (priceInCents % 100)

/-! ## JavaScript `parseInt` and webhook correlation-key extraction -/

/-- Longest leading run of decimal digits. -/
def digitsPrefix : List Char → List Char
  | [] => []
  | c :: cs => if c.isDigit then c :: digitsPrefix cs else []

/-- Decimal value of a digit list. -/
def decimalValue (cs : List Char) : Nat :=
  cs.foldl (fun n c => 10 * n + (c.toNat - 48)) 0

/-- JavaScript `parseInt(s)` (radix 10; the hexadecimal `0x` autodetection is
not modelled — no caller in this repository feeds a `0x` literal): skip
leading whitespace, take an optional sign, then the longest digit prefix;
`none` models `NaN` (no digit found). -/
def jsParseInt (s : String) : Option Int :=
  let cs := s.data.dropWhile Char.isWhitespace
  match cs with
  | '-' :: rest =>
      let d := digitsPrefix rest
      if d = [] then none else some (-(decimalValue d : Int))
  | '+' :: rest =>
      let d := digitsPrefix rest
      if d = [] then none else some (decimalValue d : Int)
  | _ =>
      let d := digitsPrefix cs
      if d = [] then none else some (decimalValue d : Int)

/-- JavaScript `x || "0"` for a nullable string `x`: the default is taken
when the value is null/undefined or the empty string (both falsy). -/
def orDefault (v : Option String) (d : String) : String :=
  match v with
  | none => d
  | some s => if s = "" then d else s

/-- The correlation-key extraction every webhook handler performs:
`const appointmentId = parseInt(key || "0"); if (!appointmentId) return;`.
`none` means the handler skips the mutation (the parse produced `NaN` or
`0`, both falsy). -/
def correlatedAppointmentId (key : Option String) : Option Int :=
  match jsParseInt (orDefault key "0") with
  | none => none
  | some n => if n = 0 then none else some n

/-! ## Webhook reconciler — `src/server/stripe-webhook.ts` -/

/-- A verified Stripe event, as far as the handlers consume it: the payload
fields each `case` of the dispatch reads.  `checkoutSessionCompleted` carries
`session.id` and `session.client_reference_id`; the payment-intent events
carry `paymentIntent.id` and `paymentIntent.metadata?.appointment_id`;
`chargeRefunded` carries `charge.id` and `charge.metadata?.appointment_id`;
`other` is any unhandled event type. -/
inductive StripeEvent
  | checkoutSessionCompleted (sessionId : String) (clientReferenceId : Option String)
  | paymentIntentSucceeded (paymentIntentId : String) (appointmentIdMeta : Option String)
  | paymentIntentFailed (paymentIntentId : String) (appointmentIdMeta : Option String)
  | chargeRefunded (chargeId : String) (appointmentIdMeta : Option String)
  | other (eventType : String)
deriving DecidableEq, Repr

/-- The result of `stripe.webhooks.constructEvent`: the event id (checked
for the `evt_test_` prefix) plus the typed payload. -/
structure SignedEvent where
  eventId : String
  event : StripeEvent
deriving DecidableEq, Repr

/-- An incoming webhook HTTP request: the optional `stripe-signature` header
and the raw body bytes (modelled as a string). -/
structure WebhookRequest where
  signature : Option String
  body : String
deriving DecidableEq, Repr

/-- The JSON bodies `handleStripeWebhook` can answer with. -/
inductive WebhookBody
  | errorMsg (msg : String)
  | verified
  | received
deriving DecidableEq, Repr

/-- An HTTP response of the webhook endpoint: status code plus JSON body. -/
structure HttpResponse where
  status : Nat
  body : WebhookBody
deriving DecidableEq, Repr

/-- `handleCheckoutSessionCompleted` from `src/server/stripe-webhook.ts`:
parse `client_reference_id`; on a falsy id skip; otherwise set
`paymentStatus = "completed"`, `stripeCheckoutSessionId = session.id`,
`status = "confirmed"` on every appointment row with the parsed id.
`dbAvailable = false` models `getDb()` returning null (early return). -/
def handleCheckoutSessionCompleted (dbAvailable : Bool) (sessionId : String)
    (clientReferenceId : Option String) (store : List Appointment) : List Appointment :=
  if !dbAvailable then store else
  match correlatedAppointmentId clientReferenceId with
  | none => store
  | some aid =>
      updateWhereId store aid (fun a =>
        { a with
            paymentStatus := PaymentStatus.completed
            stripeCheckoutSessionId := some sessionId
            status := AppointmentStatus.confirmed })

/-- `handlePaymentIntentSucceeded`: set `paymentStatus = "completed"`,
`stripePaymentIntentId = paymentIntent.id`, `status = "confirmed"`. -/
def handlePaymentIntentSucceeded (dbAvailable : Bool) (paymentIntentId : String)
    (appointmentIdMeta : Option String) (store : List Appointment) : List Appointment :=
  if !dbAvailable then store else
  match correlatedAppointmentId appointmentIdMeta with
  | none => store
  | some aid =>
      updateWhereId store aid (fun a =>
        { a with
            paymentStatus := PaymentStatus.completed
            stripePaymentIntentId := some paymentIntentId
            status := AppointmentStatus.confirmed })

/-- `handlePaymentIntentFailed`: set `paymentStatus = "failed"` and
`stripePaymentIntentId = paymentIntent.id` (lifecycle status untouched). -/
def handlePaymentIntentFailed (dbAvailable : Bool) (paymentIntentId : String)
    (appointmentIdMeta : Option String) (store : List Appointment) : List Appointment :=
  if !dbAvailable then store else
  match correlatedAppointmentId appointmentIdMeta with
  | none => store
  | some aid =>
      updateWhereId store aid (fun a =>
        { a with
            paymentStatus := PaymentStatus.failed
            stripePaymentIntentId := some paymentIntentId })

/-- `handleChargeRefunded`: set `paymentStatus = "refunded"` and
`status = "cancelled"`. -/
def handleChargeRefunded (dbAvailable : Bool) (_chargeId : String)
    (appointmentIdMeta : Option String) (store : List Appointment) : List Appointment :=
  if !dbAvailable then store else
  match correlatedAppointmentId appointmentIdMeta with
  | none => store
  | some aid =>
      updateWhereId store aid (fun a =>
        { a with
            paymentStatus := PaymentStatus.refunded
            status := AppointmentStatus.cancelled })

/-- `handleStripeWebhook` from `src/server/stripe-webhook.ts`.  `verify`
models `stripe.webhooks.constructEvent(body, signature, secret)`: it
receives the raw body and the signature header and yields the verified
event, or `none` when verification throws.  A missing header or a failed
verification answers 400 without touching the store; an `evt_test_` event
id answers `{verified: true}`; otherwise the event is dispatched on its
type and the endpoint answers `{received: true}`.  (The 500 branch of the
source only fires on an exception escaping a handler; the handlers of the
pure model do not throw, so that branch is unreachable here.) -/
def handleStripeWebhook (verify : String → String → Option SignedEvent)
    (dbAvailable : Bool) (req : WebhookRequest) (store : List Appointment) :
    HttpResponse × List Appointment :=
  match req.signature with
  | none => (⟨400, WebhookBody.errorMsg "Missing stripe-signature header"⟩, store)
  | some sig =>
      match verify req.body sig with
      | none => (⟨400, WebhookBody.errorMsg "Webhook Error"⟩, store)
      | some se =>
          if se.eventId.startsWith "evt_test_" then
            (⟨200, WebhookBody.verified⟩, store)
          else
            match se.event with
            | StripeEvent.checkoutSessionCompleted sid cref =>
                (⟨200, WebhookBody.received⟩,
                  handleCheckoutSessionCompleted dbAvailable sid cref store)
            | StripeEvent.paymentIntentSucceeded pid meta =>
                (⟨200, WebhookBody.received⟩,
                  handlePaymentIntentSucceeded dbAvailable pid meta store)
            | StripeEvent.paymentIntentFailed pid meta =>
                (⟨200, WebhookBody.received⟩,
                  handlePaymentIntentFailed dbAvailable pid meta store)
            | StripeEvent.chargeRefunded cid meta =>
                (⟨200, WebhookBody.received⟩,
                  handleChargeRefunded dbAvailable cid meta store)
            | StripeEvent.other _ =>
                (⟨200, WebhookBody.received⟩, store)

/-- The correlation key each handled event type extracts (the spec's
"correlation key" column); `other` events extract nothing. -/
def eventCorrelationKey : StripeEvent → Option String
  | StripeEvent.checkoutSessionCompleted _ cref => cref
  | StripeEvent.paymentIntentSucceeded _ meta => meta
  | StripeEvent.paymentIntentFailed _ meta => meta
  | StripeEvent.chargeRefunded _ meta => meta
  | StripeEvent.other _ => none

/-- Whether the dispatch has a `case` for the event type. -/
def isHandledEventType : StripeEvent → Bool
  | StripeEvent.other _ => false
  | _ => true

/-! ## Router operations — `src/server/routers.ts` and the stripe router -/

/-- Errors a router procedure can raise: `forbidden` models
`TRPCError({ code: "FORBIDDEN" })` thrown by the admin guards, and
`errorMsg m` models `throw new Error(m)` from the stripe router and the
data-access helpers. -/
inductive AppError
  | forbidden
  | errorMsg (msg : String)
deriving DecidableEq, Repr

/-- Return value of `createCheckoutSession`. -/
structure CheckoutResult where
  sessionId : String
  checkoutUrl : String
deriving DecidableEq, Repr

/-- `createCheckoutSession` from the stripe tRPC router.  External
provider calls are modelled by arguments: `newCustomerId` is the id
`stripe.customers.create` would mint (consulted only when the caller has no
stored customer id), and `sessionId`/`checkoutUrl` are the id and URL
`stripe.checkout.sessions.create` returns.  An `Except.error` result is a
thrown error; every store write happens after all checks, so an error
leaves the state untouched, which the `Except` shape makes explicit. -/
def createCheckoutSession (dbAvailable : Bool) (ctxUser : User)
    (appointmentId : Int) (serviceId : String)
    (newCustomerId sessionId checkoutUrl : String)
    (state : AppState) : Except AppError (AppState × CheckoutResult) :=
  if !dbAvailable then Except.error (AppError.errorMsg "Database not available") else
  match findAppointmentById state.appointments appointmentId with
  | none => Except.error (AppError.errorMsg "Appointment not found")
  | some apt =>
      if apt.userId ≠ ctxUser.id then Except.error (AppError.errorMsg "Unauthorized") else
      match getServiceById serviceId with
      | none => Except.error (AppError.errorMsg "Service not found")
      | some service =>
          let state1 :=
            match ctxUser.stripeCustomerId with
            | some _ => state
            | none =>
                { state with
                    users := state.users.map (fun (u : User) =>
                      if u.id = ctxUser.id
                      then { u with stripeCustomerId := some newCustomerId }
                      else u) }
          let state2 :=
            { state1 with
                appointments := updateWhereId state1.appointments appointmentId (fun a =>
                  { a with
                      stripeCheckoutSessionId := some sessionId
                      priceInCents := some service.price }) }
          Except.ok (state2, ⟨sessionId, checkoutUrl⟩)

/-- Return value of `getPaymentStatus`. -/
structure PaymentStatusResult where
  paymentStatus : PaymentStatus
  appointmentStatus : AppointmentStatus
  priceInCents : Option Nat
deriving DecidableEq, Repr

/-- `getPaymentStatus` from the stripe tRPC router: look the appointment up,
verify ownership, and report its payment fields (a pure read). -/
def getPaymentStatus (dbAvailable : Bool) (ctxUser : User)
    (appointmentId : Int) (state : AppState) : Except AppError PaymentStatusResult :=
  if !dbAvailable then Except.error (AppError.errorMsg "Database not available") else
  match findAppointmentById state.appointments appointmentId with
  | none => Except.error (AppError.errorMsg "Appointment not found")
  | some apt =>
      if apt.userId ≠ ctxUser.id then Except.error (AppError.errorMsg "Unauthorized")
      else Except.ok ⟨apt.paymentStatus, apt.status, apt.priceInCents⟩

/-- The partial update `appointments.update` hands to `updateAppointment`:
drizzle omits `undefined` fields from the generated `SET`, so an absent
field leaves the column unchanged.  Only the two fields the router ever
passes are modelled. -/
structure AppointmentPatch where
  status : Option AppointmentStatus
  scheduledAt : Option Nat
deriving DecidableEq, Repr

/-- Apply an `AppointmentPatch` to one row (`SET` semantics of
`db.update(appointments).set(data)`). -/
def applyAppointmentPatch (p : AppointmentPatch) (a : Appointment) : Appointment :=
  { a with
      status := p.status.getD a.status
      scheduledAt := p.scheduledAt.getD a.scheduledAt }

/-- `updateAppointment` from `src/server/db.ts`:
`db.update(appointments).set(data).where(eq(appointments.id, appointmentId))`.
The `where` clause keys on the appointment id only. -/
def updateAppointment (dbAvailable : Bool) (appointmentId : Int)
    (data : AppointmentPatch) (store : List Appointment) :
    Except AppError (List Appointment) :=
  if !dbAvailable then Except.error (AppError.errorMsg "Database not available")
  else Except.ok (updateWhereId store appointmentId (applyAppointmentPatch data))

/-- Input of the `appointments.update` procedure. -/
structure UpdateAppointmentInput where
  appointmentId : Int
  status : Option AppointmentStatus
  scheduledAt : Option Nat
deriving DecidableEq, Repr

/-- The `appointments.update` tRPC procedure: its mutation body destructures
only `{ input }` and calls `updateAppointment(input.appointmentId, {status,
scheduledAt})`.  The authenticated caller `ctxUser` is available to the
procedure (it is a `protectedProcedure`) but is never consulted. -/
def appointmentsUpdate (dbAvailable : Bool) (_ctxUser : User)
    (input : UpdateAppointmentInput) (state : AppState) : Except AppError AppState :=
  match updateAppointment dbAvailable input.appointmentId
      ⟨input.status, input.scheduledAt⟩ state.appointments with
  | Except.error e => Except.error e
  | Except.ok apts => Except.ok { state with appointments := apts }

/-- `getAllAppointments` from `src/server/db.ts`: every appointment, newest
scheduled first; an unavailable database yields the empty list. -/
def getAllAppointments (dbAvailable : Bool) (state : AppState) : List Appointment :=
  if !dbAvailable then []
  else sortByKeyDesc (fun a => a.scheduledAt) state.appointments

/-- The `appointments.listAll` procedure: the `.use` middleware rejects any
caller whose role is not `admin` with `FORBIDDEN` before the query body
runs. -/
def appointmentsListAll (dbAvailable : Bool) (ctxUser : User) (state : AppState) :
    Except AppError (List Appointment) :=
  if ctxUser.role ≠ Role.admin then Except.error AppError.forbidden
  else Except.ok (getAllAppointments dbAvailable state)

/-- `getTrainingExamples` from `src/server/db.ts`, called by the router with
no `active` filter. -/
def dbGetTrainingExamples (dbAvailable : Bool) (state : AppState) : List TrainingExample :=
  if !dbAvailable then [] else state.trainingExamples

/-- The `training.getExamples` procedure: admin guard, then the unfiltered
list. -/
def trainingGetExamples (dbAvailable : Bool) (ctxUser : User) (state : AppState) :
    Except AppError (List TrainingExample) :=
  if ctxUser.role ≠ Role.admin then Except.error AppError.forbidden
  else Except.ok (dbGetTrainingExamples dbAvailable state)

/-- Input of `training.createExample`. -/
structure CreateExampleInput where
  userMessage : String
  assistantResponse : String
  category : String
  quality : Option Quality
deriving DecidableEq, Repr

/-- The `training.createExample` procedure: admin guard, then an insert into
`training_examples` (`createTrainingExample` in `src/server/db.ts`; it
throws when the database is unavailable).  The database assigns the
auto-increment id and the schema defaults `quality = "good"`,
`active = 1`; the returned `Int` is the insert id. -/
def trainingCreateExample (dbAvailable : Bool) (ctxUser : User)
    (input : CreateExampleInput) (state : AppState) :
    Except AppError (AppState × Int) :=
  if ctxUser.role ≠ Role.admin then Except.error AppError.forbidden else
  if !dbAvailable then Except.error (AppError.errorMsg "Database not available") else
  let ex : TrainingExample :=
    { id := state.nextTrainingExampleId
      createdByUserId := ctxUser.id
      userMessage := input.userMessage
      assistantResponse := input.assistantResponse
      category := input.category
      quality := input.quality.getD Quality.good
      active := 1 }
  Except.ok
    ({ state with
        trainingExamples := state.trainingExamples ++ [ex]
        nextTrainingExampleId := state.nextTrainingExampleId + 1 },
      state.nextTrainingExampleId)

/-- Input of `training.updateExample`. -/
structure UpdateExampleInput where
  exampleId : Int
  quality : Option Quality
  active : Option Bool
deriving DecidableEq, Repr

/-- The `training.updateExample` procedure: admin guard, then
`updateTrainingExample(exampleId, {quality, active: input.active ? 1 : 0})`.
The source always materializes `active` (an absent input yields `0`), while
an absent `quality` is dropped by drizzle. -/
def trainingUpdateExample (dbAvailable : Bool) (ctxUser : User)
    (input : UpdateExampleInput) (state : AppState) : Except AppError AppState :=
  if ctxUser.role ≠ Role.admin then Except.error AppError.forbidden else
  if !dbAvailable then Except.error (AppError.errorMsg "Database not available") else
  Except.ok
    { state with
        trainingExamples := state.trainingExamples.map (fun e =>
          if e.id = input.exampleId then
            { e with
                quality := input.quality.getD e.quality
                active := if input.active = some true then 1 else 0 }
          else e) }

/-- `getMessagesByConversationId` from `src/server/db.ts`: the messages of
the given conversation ordered by `createdAt` ascending; an unavailable
database yields the empty list.  No user id appears in the query. -/
def getMessagesByConversationId (dbAvailable : Bool) (conversationId : Int)
    (state : AppState) : List Message :=
  if !dbAvailable then []
  else sortByKeyAsc (fun m => m.createdAt)
    (state.messages.filter (fun m => m.conversationId == conversationId))

/-- The `chat.getMessages` procedure: its query body destructures only
`{ input }` and calls `getMessagesByConversationId(input.conversationId)`;
the authenticated caller is in scope but never consulted. -/
def chatGetMessages (dbAvailable : Bool) (_ctxUser : User)
    (conversationId : Int) (state : AppState) : List Message :=
  getMessagesByConversationId dbAvailable conversationId state

/-! ## Concrete sample data used by witnesses and counterexamples -/

/-- A non-admin user, id 1, with no stored payment-provider customer id. -/
def sampleUser1 : User :=
  { id := 1
    openId := "open-1"
    name := some "User One"
    email := some "u1@example.com"
    role := Role.user
    stripeCustomerId := none }

/-- A non-admin user, id 2, with a stored customer id. -/
def sampleUser2 : User :=
  { id := 2
    openId := "open-2"
    name := some "User Two"
    email := some "u2@example.com"
    role := Role.user
    stripeCustomerId := some "cus_2" }

/-- An admin user, id 3. -/
def sampleAdmin : User :=
  { id := 3
    openId := "open-3"
    name := some "Admin"
    email := some "admin@example.com"
    role := Role.admin
    stripeCustomerId := none }

/-- A pending, unpaid appointment, id 1, owned by user 2. -/
def sampleAppointment : Appointment :=
  { id := 1
    userId := 2
    conversationId := some 1
    barberName := none
    service := "haircut"
    duration := 30
    scheduledAt := 100
    status := AppointmentStatus.pending
    paymentStatus := PaymentStatus.pending
    stripePaymentIntentId := none
    stripeCheckoutSessionId := none
    priceInCents := none
    notes := none }

/-- A small store: two users, one conversation owned by user 2 with one
message, one appointment owned by user 2. -/
def sampleState : AppState :=
  { users := [sampleUser1, sampleUser2]
    conversations := [⟨1, 2, "New Conversation"⟩]
    messages := [⟨1, 1, MsgRole.user, "I want a haircut", none, 1⟩]
    appointments := [sampleAppointment]
    trainingExamples := []
    nextTrainingExampleId := 1 }

/-- `sampleState` after a successful checkout-session creation for
appointment 1: only the session id and the price changed. -/
def sampleStateCheckout : AppState :=
  { sampleState with
      appointments :=
        [{ sampleAppointment with
             stripeCheckoutSessionId := some "cs_1"
             priceInCents := some 2500 }] }

/-- `sampleState` after `appointments.update` set appointment 1 to
`confirmed`. -/
def sampleStateConfirmed : AppState :=
  { sampleState with
      appointments := [{ sampleAppointment with status := AppointmentStatus.confirmed }] }

/-- `sampleState` after `appointments.update` moved appointment 1 to
timestamp 200 without touching either status field. -/
def sampleStateRescheduled : AppState :=
  { sampleState with
      appointments := [{ sampleAppointment with scheduledAt := 200 }] }

/-! ## Helper lemmas about `updateWhereId` -/

/-- A keyed update is invisible to any projection the per-row function
preserves. -/
theorem updateWhereId_map_eq {β : Type} (g : Appointment → β)
    (f : Appointment → Appointment) (hg : ∀ a, g (f a) = g a)
    (l : List Appointment) (aid : Int) :
    (updateWhereId l aid f).map g = l.map g := by
  induction l with
  | nil => rfl
  | cons a t ih =>
      simp only [updateWhereId, List.map_cons] at ih ⊢
      by_cases h : a.id = aid
      · simp [h, hg, ih]
      · simp [h, ih]

/-- A keyed update whose per-row function preserves the id and is
idempotent is itself idempotent. -/
theorem updateWhereId_idem (f : Appointment → Appointment)
    (hid : ∀ a, (f a).id = a.id) (hf : ∀ a, f (f a) = f a)
    (l : List Appointment) (aid : Int) :
    updateWhereId (updateWhereId l aid f) aid f = updateWhereId l aid f := by
  induction l with
  | nil => rfl
  | cons a t ih =>
      simp only [updateWhereId, List.map_cons] at ih ⊢
      by_cases h : a.id = aid
      · simp [h, hid, hf, ih]
      · simp [h, ih]

/-- The image of a matching row is in the updated store. -/
theorem mem_updateWhereId (f : Appointment → Appointment)
    {a : Appointment} {l : List Appointment} {aid : Int}
    (ha : a ∈ l) (h : a.id = aid) : f a ∈ updateWhereId l aid f := by
  have := List.mem_map_of_mem (fun a => if a.id = aid then f a else a) ha
  simpa [updateWhereId, h] using this

/-- A nonempty string parses like itself under the handlers' `|| "0"`
defaulting. -/
theorem correlatedAppointmentId_some {cref : String} {aid : Int}
    (h4 : jsParseInt cref = some aid) (h5 : aid ≠ 0) :
    correlatedAppointmentId (some cref) = some aid := by
  have hne : cref ≠ "" := by
    intro he
    subst he
    exact Option.noConfusion (h4.symm.trans rfl)
  simp [correlatedAppointmentId, orDefault, hne, h4, h5]

/-! ## Claim theorems -/

/-- C2: applying the same payment-intent-succeeded webhook event twice to
any appointment store yields the same final store as applying it once: the
handler's mutation is an unconditional set keyed by the appointment id, so
duplicate delivery is idempotent. -/
theorem c2_payment_intent_succeeded_idempotent (dbAvailable : Bool)
    (paymentIntentId : String) (appointmentIdMeta : Option String)
    (store : List Appointment) :
    handlePaymentIntentSucceeded dbAvailable paymentIntentId appointmentIdMeta
        (handlePaymentIntentSucceeded dbAvailable paymentIntentId appointmentIdMeta store) =
      handlePaymentIntentSucceeded dbAvailable paymentIntentId appointmentIdMeta store := by
  unfold handlePaymentIntentSucceeded
  cases dbAvailable with
  | false => simp
  | true =>
      simp only [Bool.not_true, Bool.false_eq_true, if_false]
      cases h : correlatedAppointmentId appointmentIdMeta with
      | none => simp [h]
      | some aid =>
          simp only [h]
          exact updateWhereId_idem
            (fun a =>
              { a with
                  paymentStatus := PaymentStatus.completed
                  stripePaymentIntentId := some paymentIntentId
                  status := AppointmentStatus.confirmed })
            (fun a => rfl) (fun a => rfl) store aid

/-- C3: a webhook request whose `stripe-signature` header is absent, or
whose signature verification fails, is answered with HTTP 400 and the
appointment store is left unchanged. -/
theorem c3_invalid_signature_rejected
    (verify : String → String → Option SignedEvent) (dbAvailable : Bool)
    (req : WebhookRequest) (store : List Appointment)
    (h : req.signature = none ∨
      ∃ sig, req.signature = some sig ∧ verify req.body sig = none) :
    (handleStripeWebhook verify dbAvailable req store).1.status = 400 ∧
      (handleStripeWebhook verify dbAvailable req store).2 = store := by
  rcases h with h | ⟨sig, hs, hv⟩
  · simp [handleStripeWebhook, h]
  · simp [handleStripeWebhook, hs, hv]

/-- Witness for C3 at a concrete request with no signature header. -/
theorem c3_invalid_signature_rejected_witness :
    (handleStripeWebhook (fun _ _ => none) true ⟨none, "raw-body"⟩
        [sampleAppointment]).1.status = 400 ∧
      (handleStripeWebhook (fun _ _ => none) true ⟨none, "raw-body"⟩
        [sampleAppointment]).2 = [sampleAppointment] :=
  c3_invalid_signature_rejected (fun _ _ => none) true ⟨none, "raw-body"⟩
    [sampleAppointment] (Or.inl rfl)

/-- C9: `formatPrice 2500` renders `"$25.00"`; `getServiceById "haircut"`
yields the haircut definition; and `getServiceByName` matches
case-insensitively: any letter-case variant of a catalogued service's name
(case folding modelled by `jsToLower`) resolves to that service. -/
theorem c9_service_catalog_helpers :
    formatPrice 2500 = "$25.00" ∧
    getServiceById "haircut" = some HAIRCUT ∧
    ∀ s ∈ BARBERSHOP_SERVICES, ∀ c : String,
      jsToLower c = jsToLower s.name → getServiceByName c = some s := by
  refine ⟨by decide, by decide, ?_⟩
  intro s hs c hc
  fin_cases hs <;> simp only [getServiceByName, hc] <;> decide

/-- Witness for C9 at the fully upper-cased name of each service. -/
theorem c9_service_catalog_helpers_witness :
    formatPrice 2500 = "$25.00" ∧
    getServiceById "haircut" = some HAIRCUT ∧
    getServiceByName "SERVIÇO COMPLETO" = some FULL_SERVICE :=
  ⟨c9_service_catalog_helpers.1, c9_service_catalog_helpers.2.1,
    c9_service_catalog_helpers.2.2 FULL_SERVICE (by decide) "SERVIÇO COMPLETO" (by decide)⟩

/-- C1: a verified, non-test checkout-session-completed event whose
`client_reference_id` parses to a non-zero appointment id makes the webhook
handler set that appointment's `paymentStatus` to `completed`, its `status`
to `confirmed`, and store the checkout-session id, whatever the
appointment's prior state was. -/
theorem c1_checkout_completed_confirms_appointment
    (verify : String → String → Option SignedEvent) (req : WebhookRequest)
    (store : List Appointment) (sig eventId sessionId cref : String)
    (aid : Int) (a : Appointment)
    (h1 : req.signature = some sig)
    (h2 : verify req.body sig =
      some ⟨eventId, StripeEvent.checkoutSessionCompleted sessionId (some cref)⟩)
    (h3 : eventId.startsWith "evt_test_" = false)
    (h4 : jsParseInt cref = some aid) (h5 : aid ≠ 0)
    (ha : a ∈ store) (hid : a.id = aid) :
    (handleStripeWebhook verify true req store).1 = ⟨200, WebhookBody.received⟩ ∧
      { a with
          paymentStatus := PaymentStatus.completed
          stripeCheckoutSessionId := some sessionId
          status := AppointmentStatus.confirmed } ∈
        (handleStripeWebhook verify true req store).2 := by
  have hkey := correlatedAppointmentId_some h4 h5
  constructor
  · simp [handleStripeWebhook, h1, h2, h3]
  · simp only [handleStripeWebhook, h1, h2, h3, Bool.false_eq_true, if_false,
      handleCheckoutSessionCompleted, Bool.not_true, hkey]
    exact mem_updateWhereId _ ha hid

/-- Witness for C1: a concrete verified event targeting the sample
appointment. -/
theorem c1_checkout_completed_confirms_appointment_witness :
    (handleStripeWebhook
        (fun _ _ => some ⟨"evt_1", StripeEvent.checkoutSessionCompleted "cs_9" (some "1")⟩)
        true ⟨some "sig", "raw-body"⟩ [sampleAppointment]).1 =
      ⟨200, WebhookBody.received⟩ ∧
    { sampleAppointment with
        paymentStatus := PaymentStatus.completed
        stripeCheckoutSessionId := some "cs_9"
        status := AppointmentStatus.confirmed } ∈
      (handleStripeWebhook
        (fun _ _ => some ⟨"evt_1", StripeEvent.checkoutSessionCompleted "cs_9" (some "1")⟩)
        true ⟨some "sig", "raw-body"⟩ [sampleAppointment]).2 :=
  c1_checkout_completed_confirms_appointment
    (fun _ _ => some ⟨"evt_1", StripeEvent.checkoutSessionCompleted "cs_9" (some "1")⟩)
    ⟨some "sig", "raw-body"⟩ [sampleAppointment] "sig" "evt_1" "cs_9" "1" 1
    sampleAppointment rfl rfl (by decide) (by decide) (by decide)
    (List.mem_singleton.mpr rfl) (by decide)

/-- C4: a verified, non-test webhook event of a handled type whose
correlation key is missing or parses to zero or `NaN` mutates nothing, and
the endpoint still acknowledges with 200 `{received: true}` (whether or not
the database is reachable). -/
theorem c4_uncorrelated_event_acknowledged
    (verify : String → String → Option SignedEvent) (dbAvailable : Bool)
    (req : WebhookRequest) (store : List Appointment) (sig : String)
    (se : SignedEvent)
    (h1 : req.signature = some sig)
    (h2 : verify req.body sig = some se)
    (h3 : se.eventId.startsWith "evt_test_" = false)
    (h4 : isHandledEventType se.event = true)
    (h5 : correlatedAppointmentId (eventCorrelationKey se.event) = none) :
    handleStripeWebhook verify dbAvailable req store =
      (⟨200, WebhookBody.received⟩, store) := by
  obtain ⟨eventId, ev⟩ := se
  simp only [handleStripeWebhook, h1, h2]
  simp only at h3 h4 h5
  rw [h3]
  simp only [Bool.false_eq_true, if_false]
  cases ev with
  | checkoutSessionCompleted sid cref =>
      simp only [eventCorrelationKey] at h5
      cases dbAvailable <;> simp [handleCheckoutSessionCompleted, h5]
  | paymentIntentSucceeded pid meta =>
      simp only [eventCorrelationKey] at h5
      cases dbAvailable <;> simp [handlePaymentIntentSucceeded, h5]
  | paymentIntentFailed pid meta =>
      simp only [eventCorrelationKey] at h5
      cases dbAvailable <;> simp [handlePaymentIntentFailed, h5]
  | chargeRefunded cid meta =>
      simp only [eventCorrelationKey] at h5
      cases dbAvailable <;> simp [handleChargeRefunded, h5]
  | other t =>
      simp [isHandledEventType] at h4

/-- Witness for C4: a payment-intent-succeeded event whose metadata carries
a non-numeric appointment id. -/
theorem c4_uncorrelated_event_acknowledged_witness :
    handleStripeWebhook
        (fun _ _ => some ⟨"evt_2", StripeEvent.paymentIntentSucceeded "pi_7" (some "abc")⟩)
        true ⟨some "sig", "raw-body"⟩ [sampleAppointment] =
      (⟨200, WebhookBody.received⟩, [sampleAppointment]) :=
  c4_uncorrelated_event_acknowledged
    (fun _ _ => some ⟨"evt_2", StripeEvent.paymentIntentSucceeded "pi_7" (some "abc")⟩)
    true ⟨some "sig", "raw-body"⟩ [sampleAppointment] "sig"
    ⟨"evt_2", StripeEvent.paymentIntentSucceeded "pi_7" (some "abc")⟩
    rfl rfl (by decide) (by decide) (by decide)

/-- C5: the status fields are isolated from unrelated writers:
checkout-session creation changes no appointment's `status` or
`paymentStatus` (it writes only the session id and the price), the
`appointments.update` procedure never writes `paymentStatus`, and an
`appointments.update` that does not carry a `status` field (an unrelated
field update) leaves both status fields of every appointment unchanged —
so outside the webhook handlers nothing flips them to
`completed`/`confirmed` as a side effect. -/
theorem c5_status_fields_isolated_from_unrelated_writers :
    (∀ (u : User) (aid : Int) (svc ncid sid url : String)
        (state state' : AppState) (r : CheckoutResult),
      createCheckoutSession true u aid svc ncid sid url state = Except.ok (state', r) →
      state'.appointments.map (fun a => (a.id, a.status, a.paymentStatus)) =
        state.appointments.map (fun a => (a.id, a.status, a.paymentStatus))) ∧
    (∀ (dbA : Bool) (u : User) (input : UpdateAppointmentInput) (state state' : AppState),
      appointmentsUpdate dbA u input state = Except.ok state' →
      state'.appointments.map (fun a => (a.id, a.paymentStatus)) =
        state.appointments.map (fun a => (a.id, a.paymentStatus))) ∧
    (∀ (dbA : Bool) (u : User) (input : UpdateAppointmentInput) (state state' : AppState),
      input.status = none →
      appointmentsUpdate dbA u input state = Except.ok state' →
      state'.appointments.map (fun a => (a.id, a.status, a.paymentStatus)) =
        state.appointments.map (fun a => (a.id, a.status, a.paymentStatus))) := by
  refine ⟨?_, ?_, ?_⟩
  · intro u aid svc ncid sid url state state' r h
    unfold createCheckoutSession at h
    simp only [Bool.not_true, Bool.false_eq_true, if_false] at h
    split at h
    · simp at h
    next apt hf =>
      split at h
      · simp at h
      · split at h
        · simp at h
        next service hs =>
          simp only [Except.ok.injEq, Prod.mk.injEq] at h
          obtain ⟨hst, -⟩ := h
          subst hst
          cases hc : u.stripeCustomerId with
          | some c =>
              simp only [hc]
              exact updateWhereId_map_eq (fun a => (a.id, a.status, a.paymentStatus))
                (fun a =>
                  { a with
                      stripeCheckoutSessionId := some sid
                      priceInCents := some service.price })
                (fun a => rfl) state.appointments aid
          | none =>
              simp only [hc]
              exact updateWhereId_map_eq (fun a => (a.id, a.status, a.paymentStatus))
                (fun a =>
                  { a with
                      stripeCheckoutSessionId := some sid
                      priceInCents := some service.price })
                (fun a => rfl) state.appointments aid
  · intro dbA u input state state' h
    unfold appointmentsUpdate updateAppointment at h
    cases dbA with
    | false => simp at h
    | true =>
        simp only [Bool.not_true, Bool.false_eq_true, if_false, Except.ok.injEq] at h
        subst h
        exact updateWhereId_map_eq (fun a => (a.id, a.paymentStatus))
          (applyAppointmentPatch ⟨input.status, input.scheduledAt⟩) (fun a => rfl)
          state.appointments input.appointmentId
  · intro dbA u input state state' hnone h
    unfold appointmentsUpdate updateAppointment at h
    cases dbA with
    | false => simp at h
    | true =>
        simp only [Bool.not_true, Bool.false_eq_true, if_false, Except.ok.injEq] at h
        subst h
        exact updateWhereId_map_eq (fun a => (a.id, a.status, a.paymentStatus))
          (applyAppointmentPatch ⟨input.status, input.scheduledAt⟩)
          (fun a => by simp [applyAppointmentPatch, hnone])
          state.appointments input.appointmentId

/-- Witness for C5: a concrete checkout-session creation, a concrete
status-only update, and a concrete reschedule-only update over the sample
store. -/
theorem c5_status_fields_isolated_witness :
    sampleStateCheckout.appointments.map (fun a => (a.id, a.status, a.paymentStatus)) =
        sampleState.appointments.map (fun a => (a.id, a.status, a.paymentStatus)) ∧
      sampleStateConfirmed.appointments.map (fun a => (a.id, a.paymentStatus)) =
        sampleState.appointments.map (fun a => (a.id, a.paymentStatus)) ∧
      sampleStateRescheduled.appointments.map (fun a => (a.id, a.status, a.paymentStatus)) =
        sampleState.appointments.map (fun a => (a.id, a.status, a.paymentStatus)) :=
  ⟨c5_status_fields_isolated_from_unrelated_writers.1 sampleUser2 1 "haircut" "cus_x"
      "cs_1" "url" sampleState sampleStateCheckout ⟨"cs_1", "url"⟩ (by decide),
    c5_status_fields_isolated_from_unrelated_writers.2.1 true sampleUser2
      ⟨1, some AppointmentStatus.confirmed, none⟩ sampleState sampleStateConfirmed (by decide),
    c5_status_fields_isolated_from_unrelated_writers.2.2 true sampleUser2
      ⟨1, none, some 200⟩ sampleState sampleStateRescheduled rfl (by decide)⟩

/-- C6 counterexample: caller 1 updates appointment 1, which belongs to
user 2, and the update succeeds and mutates the row — `appointments.update`
is not scoped to the requesting user. -/
theorem c6_update_not_owner_scoped_counterexample :
    sampleAppointment.userId ≠ sampleUser1.id ∧
      appointmentsUpdate true sampleUser1 ⟨1, some AppointmentStatus.confirmed, none⟩
          sampleState =
        Except.ok sampleStateConfirmed :=
  ⟨by decide, by decide⟩

/-- C6 amended: `appointments.update` performs no ownership check: its
result is independent of the calling user, and (database available) it
applies the requested patch to the appointment with the given id even when
that appointment belongs to someone else. -/
theorem c6_update_mutates_regardless_of_owner (dbAvailable : Bool) (u u' : User)
    (input : UpdateAppointmentInput) (state : AppState) (a : Appointment)
    (ha : a ∈ state.appointments) (hid : a.id = input.appointmentId)
    (_howner : a.userId ≠ u.id) :
    appointmentsUpdate dbAvailable u input state =
        appointmentsUpdate dbAvailable u' input state ∧
      (dbAvailable = true →
        ∃ state', appointmentsUpdate dbAvailable u input state = Except.ok state' ∧
          applyAppointmentPatch ⟨input.status, input.scheduledAt⟩ a ∈ state'.appointments) := by
  refine ⟨rfl, ?_⟩
  intro hdb
  subst hdb
  refine ⟨{ state with
      appointments := updateWhereId state.appointments input.appointmentId
        (applyAppointmentPatch ⟨input.status, input.scheduledAt⟩) }, rfl, ?_⟩
  exact mem_updateWhereId _ ha hid

/-- Witness for the amended C6 at the sample store: caller 1, owner 2. -/
theorem c6_update_mutates_regardless_of_owner_witness :
    appointmentsUpdate true sampleUser1 ⟨1, some AppointmentStatus.confirmed, none⟩
          sampleState =
        appointmentsUpdate true sampleAdmin ⟨1, some AppointmentStatus.confirmed, none⟩
          sampleState ∧
      (true = true →
        ∃ state', appointmentsUpdate true sampleUser1
            ⟨1, some AppointmentStatus.confirmed, none⟩ sampleState = Except.ok state' ∧
          applyAppointmentPatch ⟨some AppointmentStatus.confirmed, none⟩ sampleAppointment ∈
            state'.appointments) :=
  c6_update_mutates_regardless_of_owner true sampleUser1 sampleAdmin
    ⟨1, some AppointmentStatus.confirmed, none⟩ sampleState sampleAppointment
    (by decide) (by decide) (by decide)

/-- C7: when the requested appointment exists but belongs to a different
user, both `createCheckoutSession` and `getPaymentStatus` throw
`Unauthorized`; the ownership check precedes every write, and an error
result carries no state change. -/
theorem c7_cross_user_payment_access_unauthorized (u : User) (appointmentId : Int)
    (serviceId newCustomerId sessionId checkoutUrl : String)
    (state : AppState) (apt : Appointment)
    (hfind : findAppointmentById state.appointments appointmentId = some apt)
    (howner : apt.userId ≠ u.id) :
    createCheckoutSession true u appointmentId serviceId newCustomerId sessionId
        checkoutUrl state =
      Except.error (AppError.errorMsg "Unauthorized") ∧
    getPaymentStatus true u appointmentId state =
      Except.error (AppError.errorMsg "Unauthorized") := by
  constructor
  · unfold createCheckoutSession
    simp [hfind, howner]
  · unfold getPaymentStatus
    simp [hfind, howner]

/-- Witness for C7: user 1 targets appointment 1, owned by user 2. -/
theorem c7_cross_user_payment_access_unauthorized_witness :
    createCheckoutSession true sampleUser1 1 "haircut" "cus_x" "cs_1" "url" sampleState =
      Except.error (AppError.errorMsg "Unauthorized") ∧
    getPaymentStatus true sampleUser1 1 sampleState =
      Except.error (AppError.errorMsg "Unauthorized") :=
  c7_cross_user_payment_access_unauthorized sampleUser1 1 "haircut" "cus_x" "cs_1" "url"
    sampleState sampleAppointment (by decide) (by decide)

/-- C8: any authenticated caller whose role is not `admin` is rejected with
`FORBIDDEN` from `appointments.listAll` and from every `training.*`
procedure; the guard fires before the body, so no state is read or
written. -/
theorem c8_non_admin_forbidden (dbAvailable : Bool) (u : User) (state : AppState)
    (inp1 : CreateExampleInput) (inp2 : UpdateExampleInput)
    (h : u.role ≠ Role.admin) :
    appointmentsListAll dbAvailable u state = Except.error AppError.forbidden ∧
    trainingGetExamples dbAvailable u state = Except.error AppError.forbidden ∧
    trainingCreateExample dbAvailable u inp1 state = Except.error AppError.forbidden ∧
    trainingUpdateExample dbAvailable u inp2 state = Except.error AppError.forbidden := by
  unfold appointmentsListAll trainingGetExamples trainingCreateExample trainingUpdateExample
  simp [h]

/-- Witness for C8: the sample non-admin caller. -/
theorem c8_non_admin_forbidden_witness :
    appointmentsListAll true sampleUser1 sampleState = Except.error AppError.forbidden ∧
    trainingGetExamples true sampleUser1 sampleState = Except.error AppError.forbidden ∧
    trainingCreateExample true sampleUser1 ⟨"q", "a", "booking", none⟩ sampleState =
      Except.error AppError.forbidden ∧
    trainingUpdateExample true sampleUser1 ⟨1, none, some true⟩ sampleState =
      Except.error AppError.forbidden :=
  c8_non_admin_forbidden true sampleUser1 sampleState ⟨"q", "a", "booking", none⟩
    ⟨1, none, some true⟩ (by decide)

/-- C10: `chat.getMessages` performs no ownership check on the requested
conversation: its result is the same for every authenticated caller, and it
is exactly the conversation's message list that
`getMessagesByConversationId` reports. -/
theorem c10_get_messages_ignores_caller (dbAvailable : Bool) (u u' : User)
    (conversationId : Int) (state : AppState) :
    chatGetMessages dbAvailable u conversationId state =
        chatGetMessages dbAvailable u' conversationId state ∧
      chatGetMessages dbAvailable u conversationId state =
        getMessagesByConversationId dbAvailable conversationId state :=
  ⟨rfl, rfl⟩

end BarberSystem
